import Mathlib

set_option maxRecDepth 100000

/-!
Verification of the Fine Offset WS90 weather-station decoder
(`src/devices/fineoffset_ws90.c`, two layout variants) against its
natural-language specification.  The decoder is shallowly embedded:
byte buffers are functions `Nat → Nat` (values `< 256`), machine
arithmetic is `Nat`/`Int` with explicit `% 256`, floating-point display
scaling is modelled exactly over `ℚ`, and the fallible decode pipeline
returns an `Outcome` carrying either an abort code or the output record.
-/

namespace WS90

/-- A byte buffer, indexed by byte position; only indices 0..31 matter. -/
abbrev Frame := Nat → Nat

/-- Build a frame from a list of byte values (out-of-range reads give 0). -/
def ofList (l : List Nat) : Frame := fun i => l.getD i 0

/-- All 32 entries of the buffer are byte values. -/
abbrev FrameOK (buf : Frame) : Prop := ∀ i < 32, buf i < 256

/-- Modelled from the spec: the additive checksum primitive `add_bytes`
lives in the framework sources, which are not included here; per §6 it is
`additiveChecksum(buffer, len) -> byte`, the byte sum of the first
`num` bytes of the buffer. -/
def add_bytes (buf : Frame) (num : Nat) : Nat :=
  ((List.range num).map buf).sum % 256

/-- One shift step of the MSB-first CRC-8 computation. -/
def crc8_step (polynomial r : Nat) : Nat :=
  if r &&& 0x80 = 0 then (r <<< 1) % 256 else ((r <<< 1) ^^^ polynomial) % 256

/-- Modelled from the spec: the `crc8(buffer, len, poly, init)` primitive
lives in the framework sources, which are not included here; per §6 and
the glossary it is the MSB-first CRC-8 with the given polynomial and
initial value over the first `num` bytes of the buffer. -/
def crc8 (buf : Frame) (num polynomial init : Nat) : Nat :=
  (List.range num).foldl (fun r k => Nat.iterate (crc8_step polynomial) 8 (r ^^^ buf k)) init

/-! Field reconstruction, shared verbatim by both layout variants
(`fineoffset_ws90.c` lines 94-113 and 274-289). -/

/-- Device id, 24-bit big endian: `(buf[1] << 16) | (buf[2] << 8) | buf[3]`. -/
def id_raw (buf : Frame) : Nat := (buf 1 <<< 16) ||| (buf 2 <<< 8) ||| buf 3

/-- Light raw value: `(buf[4] << 8) | buf[5]`. -/
def light_raw (buf : Frame) : Nat := (buf 4 <<< 8) ||| buf 5

/-- Battery voltage in mV: `buf[6] * 20`. -/
def battery_mv (buf : Frame) : Nat := buf 6 * 20

/-- Battery level: `battery_mv < 1680 ? 0 : (battery_mv - 1680) / 16`. -/
def battery_lvl (buf : Frame) : Nat :=
  if battery_mv buf < 1680 then 0 else (battery_mv buf - 1680) / 16

/-- Variant B additionally clamps the level at 100. -/
def battery_lvl_B (buf : Frame) : Nat := min (battery_lvl buf) 100

/-- Temperature raw value: `((buf[7] & 0x03) << 8) | buf[8]`. -/
def temp_raw (buf : Frame) : Nat := ((buf 7 &&& 0x03) <<< 8) ||| buf 8

/-- Temperature in degrees Celsius: `(temp_raw - 400) * 0.1`. -/
def temp_c (buf : Frame) : ℚ := ((temp_raw buf : ℚ) - 400) / 10

/-- Humidity raw value: `buf[9]`. -/
def humidity_raw (buf : Frame) : Nat := buf 9

/-- Wind average raw value: `((buf[7] & 0x10) << 4) | buf[10]`. -/
def wind_avg (buf : Frame) : Nat := ((buf 7 &&& 0x10) <<< 4) ||| buf 10

/-- Wind direction raw value: `((buf[7] & 0x20) << 3) | buf[11]`. -/
def wind_dir (buf : Frame) : Nat := ((buf 7 &&& 0x20) <<< 3) ||| buf 11

/-- Wind gust raw value: `((buf[7] & 0x40) << 2) | buf[12]`. -/
def wind_max (buf : Frame) : Nat := ((buf 7 &&& 0x40) <<< 2) ||| buf 12

/-- UV index raw value: `buf[13]`. -/
def uv_index (buf : Frame) : Nat := buf 13

/-- Variant A rain raw value: `((buf[19] & 0x0f) << 8) | buf[20]`. -/
def rain_raw_A (buf : Frame) : Nat := ((buf 19 &&& 0x0f) <<< 8) ||| buf 20

/-- Variant B rain raw value: `(buf[19] << 8) | buf[20]`. -/
def rain_raw_B (buf : Frame) : Nat := (buf 19 <<< 8) ||| buf 20

/-- Variant B supercap voltage raw value: `buf[21] & 0x3f`. -/
def supercap_raw (buf : Frame) : Nat := buf 21 &&& 0x3f

/-- Variant B firmware version byte: `buf[29]`. -/
def firmware_raw (buf : Frame) : Nat := buf 29

/-- Lower-case hexadecimal digit, as produced by `sprintf %x`. -/
def hexChar (n : Nat) : Char := if n < 10 then Char.ofNat (48 + n) else Char.ofNat (87 + n)

/-- Six-digit zero-padded lower-case hex rendering, as `sprintf "%06x"`. -/
def hex6 (n : Nat) : String :=
  String.mk [hexChar (n / 1048576 % 16), hexChar (n / 65536 % 16), hexChar (n / 4096 % 16),
    hexChar (n / 256 % 16), hexChar (n / 16 % 16), hexChar (n % 16)]

/-- Variant A output record (`data_make` call at lines 125-143); `DATA_COND`
fields are `Option`s, display scaling is exact over `ℚ`, and the opaque hex
groups `g1`/`g2`/`g3` are kept as the byte lists their hex text shows. -/
structure RecordA where
  model : String
  id_str : String
  battery_ok : ℚ
  battery_mV : Nat
  temperature_C : Option ℚ
  humidity : Option Nat
  wind_dir_deg : Option Nat
  wind_avg_m_s : Option ℚ
  wind_max_m_s : Option ℚ
  uv : Option ℚ
  lux : Option ℚ
  rain_mm : ℚ
  flags : Nat
  g1 : List Nat
  g2 : List Nat
  g3 : List Nat
  mic : String
deriving DecidableEq

/-- Variant B output record (`data_make` call at lines 301-319); the
`data` extra hex string is kept as the byte list it shows (the bytes
around the `------` gap). -/
structure RecordB where
  model : String
  id_str : String
  battery_ok : ℚ
  battery_mV : Nat
  temperature_C : Option ℚ
  humidity : Option Nat
  wind_dir_deg : Option Nat
  wind_avg_m_s : Option ℚ
  wind_max_m_s : Option ℚ
  uv : Option ℚ
  lux : Option ℚ
  flags : Nat
  rain_mm : ℚ
  supercap_V : Option ℚ
  firmware : Nat
  extra : List Nat
  mic : String
deriving DecidableEq

/-- Record built by variant A from a checked buffer. -/
def buildA (buf : Frame) : RecordA where
  model := "Fineoffset-WS90"
  id_str := hex6 (id_raw buf)
  battery_ok := (battery_lvl buf : ℚ) / 100
  battery_mV := battery_mv buf
  temperature_C := if temp_raw buf ≠ 0x3ff then some (temp_c buf) else none
  humidity := if humidity_raw buf ≠ 0xff then some (humidity_raw buf) else none
  wind_dir_deg := if wind_dir buf ≠ 0x1ff then some (wind_dir buf) else none
  wind_avg_m_s := if wind_avg buf ≠ 0x1ff then some ((wind_avg buf : ℚ) / 10) else none
  wind_max_m_s := if wind_max buf ≠ 0x1ff then some ((wind_max buf : ℚ) / 10) else none
  uv := if uv_index buf ≠ 0xff then some ((uv_index buf : ℚ) / 10) else none
  lux := if light_raw buf ≠ 0xffff then some ((light_raw buf : ℚ) * 10) else none
  rain_mm := (rain_raw_A buf : ℚ) / 10
  flags := buf 7
  g1 := [buf 15, buf 16, buf 17, buf 18]
  g2 := [buf 21, buf 22, buf 23, buf 24]
  g3 := [buf 25, buf 26, buf 27, buf 28, buf 29]
  mic := "CRC"

/-- Record built by variant B from a checked buffer. -/
def buildB (buf : Frame) : RecordB where
  model := "Fineoffset-WS90"
  id_str := hex6 (id_raw buf)
  battery_ok := (battery_lvl_B buf : ℚ) / 100
  battery_mV := battery_mv buf
  temperature_C := if temp_raw buf ≠ 0x3ff then some (temp_c buf) else none
  humidity := if humidity_raw buf ≠ 0xff then some (humidity_raw buf) else none
  wind_dir_deg := if wind_dir buf ≠ 0x1ff then some (wind_dir buf) else none
  wind_avg_m_s := if wind_avg buf ≠ 0x1ff then some ((wind_avg buf : ℚ) / 10) else none
  wind_max_m_s := if wind_max buf ≠ 0x1ff then some ((wind_max buf : ℚ) / 10) else none
  uv := if uv_index buf ≠ 0xff then some ((uv_index buf : ℚ) / 10) else none
  lux := if light_raw buf ≠ 0xffff then some ((light_raw buf : ℚ) * 10) else none
  flags := buf 7
  rain_mm := (rain_raw_B buf : ℚ) / 10
  supercap_V := if supercap_raw buf ≠ 0xff then some ((supercap_raw buf : ℚ) / 10) else none
  firmware := firmware_raw buf
  extra := [buf 14, buf 15, buf 16, buf 17, buf 18, buf 22, buf 23, buf 24, buf 25, buf 26, buf 27, buf 28]
  mic := "CRC"

/-- Result of one decode invocation: either an abort code (the C `int`
return value) or a produced record (the C function then returns 1). -/
inductive Outcome (α : Type) where
  | fail (code : Int)
  | ok (r : α)
deriving DecidableEq

/-- The C `int` returned: the abort code, or 1 when a record was output. -/
def Outcome.ret {α : Type} : Outcome α → Int
  | .fail c => c
  | .ok _ => 1

/-- The record emitted through `decoder_output_data`, if any. -/
def Outcome.toRecord {α : Type} : Outcome α → Option α
  | .fail _ => none
  | .ok r => some r

/-- Modelled from the spec: the return-code constants come from the
framework header `decoder.h`, which is not among the included sources;
§4.5/§7 require each abort kind to carry a distinct non-positive code.
Code for a frame whose bit length is implausible or too short. -/
def DECODE_ABORT_LENGTH : Int := -1

/-- Modelled from the spec: see `DECODE_ABORT_LENGTH`.  Code for a frame
that is not from this device family. -/
def DECODE_ABORT_EARLY : Int := -2

/-- Modelled from the spec: see `DECODE_ABORT_LENGTH`.  Code for a frame
failing the message-integrity (checksum/CRC) checks. -/
def DECODE_FAIL_MIC : Int := -4

/-- Variant A processing of an extracted 32-byte buffer (lines 81-148):
family check, then CRC over bytes 0-30 and byte sum over bytes 0-30
against byte 31, then record construction. -/
def processA (buf : Frame) : Outcome RecordA :=
  if buf 0 ≠ 0x90 then .fail DECODE_ABORT_EARLY
  else if crc8 buf 31 0x31 0x00 ≠ 0 ∨ add_bytes buf 31 ≠ buf 31 then .fail DECODE_FAIL_MIC
  else .ok (buildA buf)

/-- Variant B processing of an extracted 32-byte buffer (lines 261-324). -/
def processB (buf : Frame) : Outcome RecordB :=
  if buf 0 ≠ 0x90 then .fail DECODE_ABORT_EARLY
  else if crc8 buf 31 0x31 0x00 ≠ 0 ∨ add_bytes buf 31 ≠ buf 31 then .fail DECODE_FAIL_MIC
  else .ok (buildB buf)

/-- The bits of one byte, most significant first. -/
def byteBits (b : Nat) : List Bool :=
  [b.testBit 7, b.testBit 6, b.testBit 5, b.testBit 4, b.testBit 3, b.testBit 2, b.testBit 1, b.testBit 0]

/-- MSB-first bit expansion of a byte list. -/
def bytesToBits (l : List Nat) : List Bool := l.foldr (fun b acc => byteBits b ++ acc) []

/-- Pack up to eight bits, MSB first, into a byte value. -/
def bitsToByte (l : List Bool) : Nat := l.foldl (fun acc b => 2 * acc + (if b then 1 else 0)) 0

/-- Modelled from the spec: `extractBytes(bitsequence, offset, byteCount)`
(§4.2, §6) from the generic bit-buffer utilities, which are not among the
included sources; packs bits MSB-first into bytes starting at the offset. -/
def extract_bytes (bits : List Bool) (offset : Nat) : Frame :=
  fun k => bitsToByte ((bits.drop (offset + 8 * k)).take 8)

/-- Whether the whole pattern occurs in `bits` starting at bit `i`. -/
def matchesAt (bits pat : List Bool) (i : Nat) : Bool :=
  ((bits.drop i).take pat.length) == pat

/-- Modelled from the spec: `search(bitsequence, pattern, patternBitLength)`
(§6) from the generic bit-buffer utilities, which are not among the
included sources; returns the first bit offset at which the whole pattern
occurs, or the buffer's bit length when there is no match, as the
short-frame check of §4.1 requires. -/
def bitbuffer_search (bits pat : List Bool) : Nat :=
  match (List.range (bits.length + 1)).find? (fun i => matchesAt bits pat i) with
  | some i => i
  | none => bits.length

/-- Variant A preamble/sync pattern `aa 2d d4`, 24 bits. -/
def preambleA : List Bool := bytesToBits [0xaa, 0x2d, 0xd4]

/-- Variant B preamble/sync pattern `aa aa 2d d4`, 32 bits. -/
def preambleB : List Bool := bytesToBits [0xaa, 0xaa, 0x2d, 0xd4]

/-- Variant A decoder (lines 59-149): bit-length window [280,350], preamble
search, 32-byte extraction, then buffer processing. -/
def fineoffset_ws90_decode_A (bits : List Bool) : Outcome RecordA :=
  if bits.length < 280 ∨ 350 < bits.length then .fail DECODE_ABORT_LENGTH
  else if bits.length < bitbuffer_search bits preambleA + 24 + 256 then .fail DECODE_ABORT_LENGTH
  else processA (extract_bytes bits (bitbuffer_search bits preambleA + 24))

/-- Variant B decoder (lines 240-325): bit-length window [168,330], preamble
search, 32-byte extraction, then buffer processing. -/
def fineoffset_ws90_decode_B (bits : List Bool) : Outcome RecordB :=
  if bits.length < 168 ∨ 330 < bits.length then .fail DECODE_ABORT_LENGTH
  else if bits.length < bitbuffer_search bits preambleB + 32 + 256 then .fail DECODE_ABORT_LENGTH
  else processB (extract_bytes bits (bitbuffer_search bits preambleB + 32))

/-- Replace the byte at index `i` of a frame, leaving all others fixed. -/
def updateByte (buf : Frame) (i v : Nat) : Frame := fun j => if j = i then v else buf j

/-- The sample variant-B capture from the source doc comment (line 217). -/
def FBbytes : List Nat :=
  [0x90, 0x00, 0x34, 0x2b, 0x00, 0x77, 0xa4, 0x82, 0x62, 0x39, 0x00, 0x3e, 0x00, 0x00, 0x3f, 0xff,
    0x20, 0x00, 0xba, 0x00, 0x00, 0x26, 0x02, 0x00, 0xff, 0x9f, 0xf8, 0x00, 0x00, 0x82, 0x92, 0x4f]

/-- The sample capture as a frame; it passes both integrity checks. -/
def FB : Frame := ofList FBbytes

/-- The sample capture with battery byte 6 set to 0x96 (3000 mV) and bytes
30/31 recomputed so that both integrity checks pass again. -/
def FB4 : Frame := ofList
  [0x90, 0x00, 0x34, 0x2b, 0x00, 0x77, 0x96, 0x82, 0x62, 0x39, 0x00, 0x3e, 0x00, 0x00, 0x3f, 0xff,
    0x20, 0x00, 0xba, 0x00, 0x00, 0x26, 0x02, 0x00, 0xff, 0x9f, 0xf8, 0x00, 0x00, 0x82, 0x4e, 0xfd]

/-- The sample capture with battery byte 6 set to 0xff (5100 mV) and bytes
30/31 recomputed so that both integrity checks pass again. -/
def FA4 : Frame := ofList
  [0x90, 0x00, 0x34, 0x2b, 0x00, 0x77, 0xff, 0x82, 0x62, 0x39, 0x00, 0x3e, 0x00, 0x00, 0x3f, 0xff,
    0x20, 0x00, 0xba, 0x00, 0x00, 0x26, 0x02, 0x00, 0xff, 0x9f, 0xf8, 0x00, 0x00, 0x82, 0x2b, 0x43]

/-- The sample capture with the unassigned byte 14 set to the marker value
0xab (appearing nowhere else in the frame) and bytes 30/31 recomputed so
that both integrity checks pass again. -/
def FC9 : Frame := ofList
  [0x90, 0x00, 0x34, 0x2b, 0x00, 0x77, 0xa4, 0x82, 0x62, 0x39, 0x00, 0x3e, 0x00, 0x00, 0xab, 0xff,
    0x20, 0x00, 0xba, 0x00, 0x00, 0x26, 0x02, 0x00, 0xff, 0x9f, 0xf8, 0x00, 0x00, 0x82, 0x8b, 0xb4]

/-- A frame whose battery byte 6 is 0x54 (1680 mV). -/
def F54 : Frame := ofList [0, 0, 0, 0, 0, 0, 0x54]

/-- The post-preamble bytes of the end-to-end example in the variant A doc
comment (line 26), zero-padded to the 32 bytes the decoder extracts. -/
def C8bytes : List Nat :=
  [0x80, 0x0a, 0x00, 0x3b, 0x00, 0x00, 0x88, 0x8a, 0x59, 0x38, 0x18, 0x6d, 0x1c, 0x00, 0xff, 0xff,
    0xd8, 0xdf] ++ List.replicate 14 0

/-- The end-to-end example bytes as an extracted frame. -/
def C8buf : Frame := ofList C8bytes

/-- A variant A radio input carrying the end-to-end example: preamble/sync
followed by the example bytes, 280 bits in total. -/
def C8bits : List Bool := bytesToBits ([0xaa, 0x2d, 0xd4] ++ C8bytes)

/-- A variant A radio input carrying the sample capture, 280 bits. -/
def bitsFB_A : List Bool := bytesToBits ([0xaa, 0x2d, 0xd4] ++ FBbytes)

/-- A variant B radio input carrying the sample capture, 288 bits. -/
def bitsFB_B : List Bool := bytesToBits ([0xaa, 0xaa, 0x2d, 0xd4] ++ FBbytes)

/-- A 300-bit input whose variant A preamble match leaves only 246 bits:
inside the plausible length window, but short of the 256 payload bits. -/
def bitsShort : List Bool := List.replicate 30 false ++ preambleA ++ List.replicate 246 false

/-- A 100-bit input, outside both plausible length windows. -/
def bitsLen : List Bool := List.replicate 100 false

/-! Helper lemmas about the two buffer-processing stages. -/

lemma processA_ok_of (buf : Frame) (h0 : buf 0 = 0x90) (h1 : crc8 buf 31 0x31 0x00 = 0)
    (h2 : add_bytes buf 31 = buf 31) : processA buf = Outcome.ok (buildA buf) := by
  unfold processA
  rw [if_neg (by simp [h0]), if_neg (by simp [h1, h2])]

lemma processB_ok_of (buf : Frame) (h0 : buf 0 = 0x90) (h1 : crc8 buf 31 0x31 0x00 = 0)
    (h2 : add_bytes buf 31 = buf 31) : processB buf = Outcome.ok (buildB buf) := by
  unfold processB
  rw [if_neg (by simp [h0]), if_neg (by simp [h1, h2])]

lemma processA_ok_inv (buf : Frame) (r : RecordA) (h : processA buf = Outcome.ok r) :
    buf 0 = 0x90 ∧ crc8 buf 31 0x31 0x00 = 0 ∧ add_bytes buf 31 = buf 31 ∧ r = buildA buf := by
  unfold processA at h
  by_cases h0 : buf 0 ≠ 0x90
  · rw [if_pos h0] at h; cases h
  · rw [if_neg h0] at h
    by_cases h1 : crc8 buf 31 0x31 0x00 ≠ 0 ∨ add_bytes buf 31 ≠ buf 31
    · rw [if_pos h1] at h; cases h
    · rw [if_neg h1] at h
      push_neg at h0 h1
      cases h
      exact ⟨h0, h1.1, h1.2, rfl⟩

lemma processB_ok_inv (buf : Frame) (r : RecordB) (h : processB buf = Outcome.ok r) :
    buf 0 = 0x90 ∧ crc8 buf 31 0x31 0x00 = 0 ∧ add_bytes buf 31 = buf 31 ∧ r = buildB buf := by
  unfold processB at h
  by_cases h0 : buf 0 ≠ 0x90
  · rw [if_pos h0] at h; cases h
  · rw [if_neg h0] at h
    by_cases h1 : crc8 buf 31 0x31 0x00 ≠ 0 ∨ add_bytes buf 31 ≠ buf 31
    · rw [if_pos h1] at h; cases h
    · rw [if_neg h1] at h
      push_neg at h0 h1
      cases h
      exact ⟨h0, h1.1, h1.2, rfl⟩

lemma updateByte_at (buf : Frame) (i v : Nat) : updateByte buf i v i = v := by
  simp [updateByte]

lemma updateByte_ne (buf : Frame) (i v j : Nat) (h : j ≠ i) : updateByte buf i v j = buf j := by
  simp [updateByte, h]

lemma decode_A_sample :
    fineoffset_ws90_decode_A bitsFB_A = Outcome.ok (buildA (extract_bytes bitsFB_A 24)) := by
  unfold fineoffset_ws90_decode_A
  rw [if_neg (by decide), if_neg (by decide)]
  have hs : bitbuffer_search bitsFB_A preambleA + 24 = 24 := by decide
  rw [hs]
  exact processA_ok_of _ (by decide) (by decide) (by decide)

lemma flagbit_facts : ∀ a < 256,
    ((a ||| 0x10) &&& 0x10 = 0x10) ∧ ((a &&& 0xef) &&& 0x10 = 0) ∧
    ((a ||| 0x20) &&& 0x20 = 0x20) ∧ ((a &&& 0xdf) &&& 0x20 = 0) ∧
    ((a ||| 0x40) &&& 0x40 = 0x40) ∧ ((a &&& 0xbf) &&& 0x40 = 0) ∧
    ((a ||| 0x01) &&& 0x03 = (a &&& 0x02) ||| 0x01) ∧ ((a &&& 0xfe) &&& 0x03 = a &&& 0x02) ∧
    ((a ||| 0x02) &&& 0x03 = (a &&& 0x01) ||| 0x02) ∧ ((a &&& 0xfd) &&& 0x03 = a &&& 0x01) ∧
    (a &&& 0x02 = 0 ∨ a &&& 0x02 = 2) ∧ (a &&& 0x01 = 0 ∨ a &&& 0x01 = 1) := by
  decide

lemma or_pow_facts : ∀ b < 256,
    (0 ||| b = b) ∧ (256 ||| b = 256 + b) ∧ (512 ||| b = 512 + b) ∧ (768 ||| b = 768 + b) := by
  decide

/-! C1. -/

/-- C1: counterexample.  The sample capture passes the family check, the
additive sum over bytes 0-30 matches byte 31, and the CRC-8 over bytes
0-30 is zero, so the decoder produces a record — yet the CRC-8 over bytes
0-31 claimed by C1 is nonzero, refuting the stated "if and only if". -/
theorem C1_counterexample :
    processA FB = Outcome.ok (buildA FB) ∧ add_bytes FB 31 = FB 31 ∧
    crc8 FB 31 0x31 0x00 = 0 ∧ crc8 FB 32 0x31 0x00 ≠ 0 :=
  ⟨processA_ok_of FB (by decide) (by decide) (by decide), by decide, by decide, by decide⟩

/-- C1 (amended): for every 32-byte frame passing the family check, both
variants produce a record iff the additive byte sum over bytes 0-30 equals
byte 31 and the CRC-8 (polynomial 0x31, initial value 0x00) over bytes
0-30 — not 0-31 — is zero; if either check fails, the decoder returns
`DECODE_FAIL_MIC` and emits no record. -/
theorem C1_mic_iff (buf : Frame) (h0 : buf 0 = 0x90) :
    ((∃ r, processA buf = Outcome.ok r) ↔
      add_bytes buf 31 = buf 31 ∧ crc8 buf 31 0x31 0x00 = 0) ∧
    ((∃ r, processB buf = Outcome.ok r) ↔
      add_bytes buf 31 = buf 31 ∧ crc8 buf 31 0x31 0x00 = 0) ∧
    (¬(add_bytes buf 31 = buf 31 ∧ crc8 buf 31 0x31 0x00 = 0) →
      processA buf = Outcome.fail DECODE_FAIL_MIC ∧ (processA buf).toRecord = none ∧
      processB buf = Outcome.fail DECODE_FAIL_MIC ∧ (processB buf).toRecord = none) := by
  have hA : processA buf = if crc8 buf 31 0x31 0x00 ≠ 0 ∨ add_bytes buf 31 ≠ buf 31
      then Outcome.fail DECODE_FAIL_MIC else Outcome.ok (buildA buf) := by
    unfold processA; rw [if_neg (by simp [h0])]
  have hB : processB buf = if crc8 buf 31 0x31 0x00 ≠ 0 ∨ add_bytes buf 31 ≠ buf 31
      then Outcome.fail DECODE_FAIL_MIC else Outcome.ok (buildB buf) := by
    unfold processB; rw [if_neg (by simp [h0])]
  by_cases h1 : crc8 buf 31 0x31 0x00 ≠ 0 ∨ add_bytes buf 31 ≠ buf 31
  · rw [if_pos h1] at hA hB
    refine ⟨?_, ?_, fun _ => ⟨hA, by rw [hA]; rfl, hB, by rw [hB]; rfl⟩⟩
    · rw [hA]
      constructor
      · rintro ⟨r, hr⟩; cases hr
      · rintro ⟨ha, hc⟩
        rcases h1 with h | h
        · exact absurd hc h
        · exact absurd ha h
    · rw [hB]
      constructor
      · rintro ⟨r, hr⟩; cases hr
      · rintro ⟨ha, hc⟩
        rcases h1 with h | h
        · exact absurd hc h
        · exact absurd ha h
  · rw [if_neg h1] at hA hB
    push_neg at h1
    refine ⟨?_, ?_, fun hcon => absurd ⟨h1.2, h1.1⟩ hcon⟩
    · rw [hA]
      exact ⟨fun _ => ⟨h1.2, h1.1⟩, fun _ => ⟨buildA buf, rfl⟩⟩
    · rw [hB]
      exact ⟨fun _ => ⟨h1.2, h1.1⟩, fun _ => ⟨buildB buf, rfl⟩⟩

/-- C1: witness.  The amended theorem applied to the sample capture. -/
theorem C1_mic_iff_witness :
    FB 0 = 0x90 ∧ (∃ r, processA FB = Outcome.ok r) :=
  ⟨by decide, (C1_mic_iff FB (by decide)).1.mpr ⟨by decide, by decide⟩⟩

/-! C6. -/

/-- C6: for every input whose bit length lies outside [280, 350] (variant A)
or [168, 330] (variant B), the decoder returns `DECODE_ABORT_LENGTH`
whatever the bit content, so before any preamble search or extraction can
have an effect. -/
theorem C6_length_abort :
    (∀ bits : List Bool, bits.length < 280 ∨ 350 < bits.length →
      fineoffset_ws90_decode_A bits = Outcome.fail DECODE_ABORT_LENGTH) ∧
    (∀ bits : List Bool, bits.length < 168 ∨ 330 < bits.length →
      fineoffset_ws90_decode_B bits = Outcome.fail DECODE_ABORT_LENGTH) := by
  constructor
  · intro bits h
    unfold fineoffset_ws90_decode_A
    rw [if_pos h]
  · intro bits h
    unfold fineoffset_ws90_decode_B
    rw [if_pos h]

/-- C6: witness.  The theorem applied to a concrete 100-bit input. -/
theorem C6_length_abort_witness :
    fineoffset_ws90_decode_A bitsLen = Outcome.fail DECODE_ABORT_LENGTH ∧
    fineoffset_ws90_decode_B bitsLen = Outcome.fail DECODE_ABORT_LENGTH :=
  ⟨C6_length_abort.1 bitsLen (by decide), C6_length_abort.2 bitsLen (by decide)⟩

/-! C7. -/

/-- C7: every extracted buffer whose byte 0 is not the family code 0x90 is
rejected with `DECODE_ABORT_EARLY` by both variants, before the integrity
checks are consulted, and no record is produced. -/
theorem C7_family_abort (buf : Frame) (h : buf 0 ≠ 0x90) :
    processA buf = Outcome.fail DECODE_ABORT_EARLY ∧ (processA buf).toRecord = none ∧
    processB buf = Outcome.fail DECODE_ABORT_EARLY ∧ (processB buf).toRecord = none := by
  have hA : processA buf = Outcome.fail DECODE_ABORT_EARLY := by
    unfold processA; rw [if_pos h]
  have hB : processB buf = Outcome.fail DECODE_ABORT_EARLY := by
    unfold processB; rw [if_pos h]
  exact ⟨hA, by rw [hA]; rfl, hB, by rw [hB]; rfl⟩

/-- C7: witness.  The theorem applied to the doc-comment example buffer,
whose byte 0 is 0x80. -/
theorem C7_family_abort_witness :
    processA C8buf = Outcome.fail DECODE_ABORT_EARLY ∧ (processA C8buf).toRecord = none ∧
    processB C8buf = Outcome.fail DECODE_ABORT_EARLY ∧ (processB C8buf).toRecord = none :=
  C7_family_abort C8buf (by decide)

/-! C2. -/

/-- C2: for every accepted frame, in both variants, each of temperature,
humidity, wind direction, wind average, wind gust, UV and illuminance is
absent in the output record exactly when its fully reconstructed raw value
equals its all-ones sentinel (0x3ff, 0xff, 0x1ff, 0x1ff, 0x1ff, 0xff,
0xffff respectively), and a raw value of sentinel-minus-one yields the
present, documented-scaled value. -/
theorem C2_sentinels :
    (∀ buf r, processA buf = Outcome.ok r →
      ((r.temperature_C = none ↔ temp_raw buf = 0x3ff) ∧
        (temp_raw buf = 0x3fe → r.temperature_C = some ((0x3fe - 400 : ℚ) / 10)) ∧
        (r.humidity = none ↔ humidity_raw buf = 0xff) ∧
        (humidity_raw buf = 0xfe → r.humidity = some 0xfe) ∧
        (r.wind_dir_deg = none ↔ wind_dir buf = 0x1ff) ∧
        (wind_dir buf = 0x1fe → r.wind_dir_deg = some 0x1fe) ∧
        (r.wind_avg_m_s = none ↔ wind_avg buf = 0x1ff) ∧
        (wind_avg buf = 0x1fe → r.wind_avg_m_s = some ((0x1fe : ℚ) / 10)) ∧
        (r.wind_max_m_s = none ↔ wind_max buf = 0x1ff) ∧
        (wind_max buf = 0x1fe → r.wind_max_m_s = some ((0x1fe : ℚ) / 10)) ∧
        (r.uv = none ↔ uv_index buf = 0xff) ∧
        (uv_index buf = 0xfe → r.uv = some ((0xfe : ℚ) / 10)) ∧
        (r.lux = none ↔ light_raw buf = 0xffff) ∧
        (light_raw buf = 0xfffe → r.lux = some ((0xfffe : ℚ) * 10)))) ∧
    (∀ buf r, processB buf = Outcome.ok r →
      ((r.temperature_C = none ↔ temp_raw buf = 0x3ff) ∧
        (temp_raw buf = 0x3fe → r.temperature_C = some ((0x3fe - 400 : ℚ) / 10)) ∧
        (r.humidity = none ↔ humidity_raw buf = 0xff) ∧
        (humidity_raw buf = 0xfe → r.humidity = some 0xfe) ∧
        (r.wind_dir_deg = none ↔ wind_dir buf = 0x1ff) ∧
        (wind_dir buf = 0x1fe → r.wind_dir_deg = some 0x1fe) ∧
        (r.wind_avg_m_s = none ↔ wind_avg buf = 0x1ff) ∧
        (wind_avg buf = 0x1fe → r.wind_avg_m_s = some ((0x1fe : ℚ) / 10)) ∧
        (r.wind_max_m_s = none ↔ wind_max buf = 0x1ff) ∧
        (wind_max buf = 0x1fe → r.wind_max_m_s = some ((0x1fe : ℚ) / 10)) ∧
        (r.uv = none ↔ uv_index buf = 0xff) ∧
        (uv_index buf = 0xfe → r.uv = some ((0xfe : ℚ) / 10)) ∧
        (r.lux = none ↔ light_raw buf = 0xffff) ∧
        (light_raw buf = 0xfffe → r.lux = some ((0xfffe : ℚ) * 10)))) := by
  constructor
  · intro buf r h
    obtain ⟨-, -, -, hr⟩ := processA_ok_inv buf r h
    subst hr
    refine ⟨?_, ?_, ?_, ?_, ?_, ?_, ?_, ?_, ?_, ?_, ?_, ?_, ?_, ?_⟩
    · by_cases hc : temp_raw buf = 0x3ff <;> simp [buildA, hc]
    · intro hc; norm_num [buildA, hc, temp_c]
    · by_cases hc : humidity_raw buf = 0xff <;> simp [buildA, hc]
    · intro hc; norm_num [buildA, hc]
    · by_cases hc : wind_dir buf = 0x1ff <;> simp [buildA, hc]
    · intro hc; norm_num [buildA, hc]
    · by_cases hc : wind_avg buf = 0x1ff <;> simp [buildA, hc]
    · intro hc; norm_num [buildA, hc]
    · by_cases hc : wind_max buf = 0x1ff <;> simp [buildA, hc]
    · intro hc; norm_num [buildA, hc]
    · by_cases hc : uv_index buf = 0xff <;> simp [buildA, hc]
    · intro hc; norm_num [buildA, hc]
    · by_cases hc : light_raw buf = 0xffff <;> simp [buildA, hc]
    · intro hc; norm_num [buildA, hc]
  · intro buf r h
    obtain ⟨-, -, -, hr⟩ := processB_ok_inv buf r h
    subst hr
    refine ⟨?_, ?_, ?_, ?_, ?_, ?_, ?_, ?_, ?_, ?_, ?_, ?_, ?_, ?_⟩
    · by_cases hc : temp_raw buf = 0x3ff <;> simp [buildB, hc]
    · intro hc; norm_num [buildB, hc, temp_c]
    · by_cases hc : humidity_raw buf = 0xff <;> simp [buildB, hc]
    · intro hc; norm_num [buildB, hc]
    · by_cases hc : wind_dir buf = 0x1ff <;> simp [buildB, hc]
    · intro hc; norm_num [buildB, hc]
    · by_cases hc : wind_avg buf = 0x1ff <;> simp [buildB, hc]
    · intro hc; norm_num [buildB, hc]
    · by_cases hc : wind_max buf = 0x1ff <;> simp [buildB, hc]
    · intro hc; norm_num [buildB, hc]
    · by_cases hc : uv_index buf = 0xff <;> simp [buildB, hc]
    · intro hc; norm_num [buildB, hc]
    · by_cases hc : light_raw buf = 0xffff <;> simp [buildB, hc]
    · intro hc; norm_num [buildB, hc]

/-- C2: witness.  The theorem applied to the sample capture under both
variants. -/
theorem C2_sentinels_witness :
    ((buildA FB).temperature_C = none ↔ temp_raw FB = 0x3ff) ∧
    ((buildB FB).humidity = none ↔ humidity_raw FB = 0xff) :=
  ⟨(C2_sentinels.1 FB (buildA FB) (processA_ok_of FB (by decide) (by decide) (by decide))).1,
    (C2_sentinels.2 FB (buildB FB) (processB_ok_of FB (by decide) (by decide) (by decide))).2.2.1⟩

/-! C3. -/

/-- C3: for every accepted frame of byte values, switching the designated
byte 7 flag bit while holding every other byte fixed raises the
reconstructed raw value by exactly +256 for wind average (0x10), wind
direction (0x20) and wind gust (0x40), and the two temperature flag bits
raise its raw value by +256 (0x01) and +512 (0x02). -/
theorem C3_msb_extension (buf : Frame) (hok : FrameOK buf) (r : RecordA)
    (_hacc : processA buf = Outcome.ok r) :
    wind_avg (updateByte buf 7 (buf 7 ||| 0x10)) =
      wind_avg (updateByte buf 7 (buf 7 &&& 0xef)) + 256 ∧
    wind_dir (updateByte buf 7 (buf 7 ||| 0x20)) =
      wind_dir (updateByte buf 7 (buf 7 &&& 0xdf)) + 256 ∧
    wind_max (updateByte buf 7 (buf 7 ||| 0x40)) =
      wind_max (updateByte buf 7 (buf 7 &&& 0xbf)) + 256 ∧
    temp_raw (updateByte buf 7 (buf 7 ||| 0x01)) =
      temp_raw (updateByte buf 7 (buf 7 &&& 0xfe)) + 256 ∧
    temp_raw (updateByte buf 7 (buf 7 ||| 0x02)) =
      temp_raw (updateByte buf 7 (buf 7 &&& 0xfd)) + 512 := by
  have h7 := hok 7 (by omega)
  have h8 := hok 8 (by omega)
  have h10 := hok 10 (by omega)
  have h11 := hok 11 (by omega)
  have h12 := hok 12 (by omega)
  obtain ⟨f1, f2, f3, f4, f5, f6, f7, f8, f9, f10, f11, f12⟩ := flagbit_facts (buf 7) h7
  obtain ⟨z8, e8a, e8b, e8c⟩ := or_pow_facts (buf 8) h8
  obtain ⟨z10, e10a, -, -⟩ := or_pow_facts (buf 10) h10
  obtain ⟨z11, e11a, -, -⟩ := or_pow_facts (buf 11) h11
  obtain ⟨z12, e12a, -, -⟩ := or_pow_facts (buf 12) h12
  refine ⟨?_, ?_, ?_, ?_, ?_⟩
  · simp only [wind_avg]
    rw [updateByte_at, updateByte_at,
      updateByte_ne buf 7 (buf 7 ||| 0x10) 10 (by omega),
      updateByte_ne buf 7 (buf 7 &&& 0xef) 10 (by omega), f1, f2]
    have c1 : (0x10 : Nat) <<< 4 = 256 := by decide
    have c2 : (0 : Nat) <<< 4 = 0 := by decide
    rw [c1, c2, z10, e10a]
    omega
  · simp only [wind_dir]
    rw [updateByte_at, updateByte_at,
      updateByte_ne buf 7 (buf 7 ||| 0x20) 11 (by omega),
      updateByte_ne buf 7 (buf 7 &&& 0xdf) 11 (by omega), f3, f4]
    have c1 : (0x20 : Nat) <<< 3 = 256 := by decide
    have c2 : (0 : Nat) <<< 3 = 0 := by decide
    rw [c1, c2, z11, e11a]
    omega
  · simp only [wind_max]
    rw [updateByte_at, updateByte_at,
      updateByte_ne buf 7 (buf 7 ||| 0x40) 12 (by omega),
      updateByte_ne buf 7 (buf 7 &&& 0xbf) 12 (by omega), f5, f6]
    have c1 : (0x40 : Nat) <<< 2 = 256 := by decide
    have c2 : (0 : Nat) <<< 2 = 0 := by decide
    rw [c1, c2, z12, e12a]
    omega
  · simp only [temp_raw]
    rw [updateByte_at, updateByte_at,
      updateByte_ne buf 7 (buf 7 ||| 0x01) 8 (by omega),
      updateByte_ne buf 7 (buf 7 &&& 0xfe) 8 (by omega), f7, f8]
    rcases f11 with h2 | h2 <;> rw [h2]
    · have c1 : ((0 : Nat) ||| 0x01) <<< 8 = 256 := by decide
      have c2 : (0 : Nat) <<< 8 = 0 := by decide
      rw [c1, c2, z8, e8a]
      omega
    · have c1 : ((2 : Nat) ||| 0x01) <<< 8 = 768 := by decide
      have c2 : (2 : Nat) <<< 8 = 512 := by decide
      rw [c1, c2, e8b, e8c]
      omega
  · simp only [temp_raw]
    rw [updateByte_at, updateByte_at,
      updateByte_ne buf 7 (buf 7 ||| 0x02) 8 (by omega),
      updateByte_ne buf 7 (buf 7 &&& 0xfd) 8 (by omega), f9, f10]
    rcases f12 with h2 | h2 <;> rw [h2]
    · have c1 : ((0 : Nat) ||| 0x02) <<< 8 = 512 := by decide
      have c2 : (0 : Nat) <<< 8 = 0 := by decide
      rw [c1, c2, z8, e8b]
      omega
    · have c1 : ((1 : Nat) ||| 0x02) <<< 8 = 768 := by decide
      have c2 : (1 : Nat) <<< 8 = 256 := by decide
      rw [c1, c2, e8a, e8c]
      omega

/-- C3: witness.  The theorem applied to the sample capture. -/
theorem C3_msb_extension_witness :
    wind_avg (updateByte FB 7 (FB 7 ||| 0x10)) =
      wind_avg (updateByte FB 7 (FB 7 &&& 0xef)) + 256 ∧
    wind_dir (updateByte FB 7 (FB 7 ||| 0x20)) =
      wind_dir (updateByte FB 7 (FB 7 &&& 0xdf)) + 256 ∧
    wind_max (updateByte FB 7 (FB 7 ||| 0x40)) =
      wind_max (updateByte FB 7 (FB 7 &&& 0xbf)) + 256 ∧
    temp_raw (updateByte FB 7 (FB 7 ||| 0x01)) =
      temp_raw (updateByte FB 7 (FB 7 &&& 0xfe)) + 256 ∧
    temp_raw (updateByte FB 7 (FB 7 ||| 0x02)) =
      temp_raw (updateByte FB 7 (FB 7 &&& 0xfd)) + 512 :=
  C3_msb_extension FB (by decide) (buildA FB)
    (processA_ok_of FB (by decide) (by decide) (by decide))

/-! C4. -/

/-- C4: counterexample.  Two accepted frames: one (variant B) with battery
byte 0x96, i.e. exactly 3000 mV, whose level is 82 rather than the claimed
100; and one (variant A) with battery byte 0xff, i.e. 5100 mV, whose level
is 213, above the claimed [0, 100] clamp. -/
theorem C4_counterexample :
    processB FB4 = Outcome.ok (buildB FB4) ∧ battery_mv FB4 = 3000 ∧
    battery_lvl_B FB4 = 82 ∧ battery_lvl FB4 = 82 ∧
    processA FA4 = Outcome.ok (buildA FA4) ∧ battery_mv FA4 = 5100 ∧
    battery_lvl FA4 = 213 ∧ 100 < battery_lvl FA4 :=
  ⟨processB_ok_of FB4 (by decide) (by decide) (by decide), by decide, by decide, by decide,
    processA_ok_of FA4 (by decide) (by decide) (by decide), by decide, by decide, by decide⟩

/-- C4 (amended): the battery level map from `battery_mv = buf[6] * 20` is
monotone non-decreasing, sends all values below 1680 mV (in particular raw
byte 0x54) to level 0, and in variant B is clamped at 100, the clamp
binding exactly from 3280 mV upward; variant A applies no upper clamp. -/
theorem C4_battery_map :
    (∀ buf : Frame, battery_mv buf < 1680 → battery_lvl buf = 0 ∧ battery_lvl_B buf = 0) ∧
    (∀ buf buf' : Frame, battery_mv buf ≤ battery_mv buf' →
      battery_lvl buf ≤ battery_lvl buf' ∧ battery_lvl_B buf ≤ battery_lvl_B buf') ∧
    (∀ buf : Frame, buf 6 = 0x54 →
      battery_mv buf = 1680 ∧ battery_lvl buf = 0 ∧ battery_lvl_B buf = 0) ∧
    (∀ buf : Frame, battery_lvl_B buf ≤ 100) ∧
    (∀ buf : Frame, 3280 ≤ battery_mv buf → battery_lvl_B buf = 100) := by
  have hmono : ∀ buf buf' : Frame, battery_mv buf ≤ battery_mv buf' →
      battery_lvl buf ≤ battery_lvl buf' := by
    intro buf buf' h
    unfold battery_lvl
    by_cases h1 : battery_mv buf < 1680
    · rw [if_pos h1]
      exact Nat.zero_le _
    · rw [if_neg h1, if_neg (by omega)]
      exact Nat.div_le_div_right (Nat.sub_le_sub_right h 1680)
  refine ⟨?_, ?_, ?_, ?_, ?_⟩
  · intro buf h
    unfold battery_lvl_B battery_lvl
    rw [if_pos h]
    simp
  · intro buf buf' h
    exact ⟨hmono buf buf' h, min_le_min (hmono buf buf' h) le_rfl⟩
  · intro buf h
    have hmv : battery_mv buf = 1680 := by unfold battery_mv; rw [h]
    refine ⟨hmv, ?_, ?_⟩
    · unfold battery_lvl
      rw [if_neg (by omega), hmv]
    · unfold battery_lvl_B battery_lvl
      rw [if_neg (by omega), hmv]
      norm_num
  · intro buf
    exact min_le_right _ _
  · intro buf h
    unfold battery_lvl_B battery_lvl
    rw [if_neg (by omega)]
    have h100 : 100 ≤ (battery_mv buf - 1680) / 16 := by
      rw [Nat.le_div_iff_mul_le (by norm_num)]
      omega
    exact min_eq_right h100

/-- C4: witness.  The theorem applied to a frame with battery byte 0x54 and
to the sample capture, whose battery byte 0xa4 gives exactly 3280 mV. -/
theorem C4_battery_map_witness :
    (battery_mv F54 = 1680 ∧ battery_lvl F54 = 0 ∧ battery_lvl_B F54 = 0) ∧
    battery_lvl_B FB = 100 :=
  ⟨C4_battery_map.2.2.1 F54 (by decide), C4_battery_map.2.2.2.2 FB (by decide)⟩

/-! C5. -/

/-- C5: counterexample.  A 100-bit input aborts for implausible length and
a 300-bit input whose preamble match leaves fewer than 256 bits aborts as
a short frame, yet both return the same code `DECODE_ABORT_LENGTH`, so the
two abort causes do not have distinct return values. -/
theorem C5_counterexample :
    bitsLen.length < 280 ∧
    fineoffset_ws90_decode_A bitsLen = Outcome.fail DECODE_ABORT_LENGTH ∧
    280 ≤ bitsShort.length ∧ bitsShort.length ≤ 350 ∧
    bitsShort.length < bitbuffer_search bitsShort preambleA + 24 + 256 ∧
    fineoffset_ws90_decode_A bitsShort = Outcome.fail DECODE_ABORT_LENGTH :=
  ⟨by decide, by decide, by decide, by decide, by decide, by decide⟩

/-- C5 (amended): the decoder returns 1 exactly when a record is produced;
family-mismatch returns `DECODE_ABORT_EARLY`, integrity-failure returns
`DECODE_FAIL_MIC`, and the three abort codes in use are pairwise distinct
and non-positive — but the length-abort and short-frame causes share the
single code `DECODE_ABORT_LENGTH`. -/
theorem C5_return_codes :
    (DECODE_ABORT_LENGTH ≠ DECODE_ABORT_EARLY ∧ DECODE_ABORT_EARLY ≠ DECODE_FAIL_MIC ∧
      DECODE_ABORT_LENGTH ≠ DECODE_FAIL_MIC ∧
      DECODE_ABORT_LENGTH ≤ 0 ∧ DECODE_ABORT_EARLY ≤ 0 ∧ DECODE_FAIL_MIC ≤ 0) ∧
    (∀ bits r, fineoffset_ws90_decode_A bits = Outcome.ok r →
      (fineoffset_ws90_decode_A bits).ret = 1) ∧
    (∀ bits r, fineoffset_ws90_decode_B bits = Outcome.ok r →
      (fineoffset_ws90_decode_B bits).ret = 1) ∧
    (∀ bits : List Bool, bits.length < 280 ∨ 350 < bits.length →
      fineoffset_ws90_decode_A bits = Outcome.fail DECODE_ABORT_LENGTH) ∧
    (∀ bits : List Bool, ¬(bits.length < 280 ∨ 350 < bits.length) →
      bits.length < bitbuffer_search bits preambleA + 24 + 256 →
      fineoffset_ws90_decode_A bits = Outcome.fail DECODE_ABORT_LENGTH) ∧
    (∀ bits : List Bool, bits.length < 168 ∨ 330 < bits.length →
      fineoffset_ws90_decode_B bits = Outcome.fail DECODE_ABORT_LENGTH) ∧
    (∀ bits : List Bool, ¬(bits.length < 168 ∨ 330 < bits.length) →
      bits.length < bitbuffer_search bits preambleB + 32 + 256 →
      fineoffset_ws90_decode_B bits = Outcome.fail DECODE_ABORT_LENGTH) ∧
    (∀ buf : Frame, buf 0 ≠ 0x90 →
      processA buf = Outcome.fail DECODE_ABORT_EARLY ∧
      processB buf = Outcome.fail DECODE_ABORT_EARLY) ∧
    (∀ buf : Frame, buf 0 = 0x90 →
      (crc8 buf 31 0x31 0x00 ≠ 0 ∨ add_bytes buf 31 ≠ buf 31) →
      processA buf = Outcome.fail DECODE_FAIL_MIC ∧
      processB buf = Outcome.fail DECODE_FAIL_MIC) := by
  refine ⟨⟨by decide, by decide, by decide, by decide, by decide, by decide⟩,
    ?_, ?_, ?_, ?_, ?_, ?_, ?_, ?_⟩
  · intro bits r h
    rw [h]
    rfl
  · intro bits r h
    rw [h]
    rfl
  · intro bits h
    unfold fineoffset_ws90_decode_A
    rw [if_pos h]
  · intro bits h1 h2
    unfold fineoffset_ws90_decode_A
    rw [if_neg h1, if_pos h2]
  · intro bits h
    unfold fineoffset_ws90_decode_B
    rw [if_pos h]
  · intro bits h1 h2
    unfold fineoffset_ws90_decode_B
    rw [if_neg h1, if_pos h2]
  · intro buf h
    constructor
    · unfold processA
      rw [if_pos h]
    · unfold processB
      rw [if_pos h]
  · intro buf h0 h1
    constructor
    · unfold processA
      rw [if_neg (by simp [h0]), if_pos h1]
    · unfold processB
      rw [if_neg (by simp [h0]), if_pos h1]

/-- C5: witness.  The amended theorem applied to four concrete inputs: a
successful decode, a length abort, a short-frame abort and a family
mismatch. -/
theorem C5_return_codes_witness :
    (fineoffset_ws90_decode_A bitsFB_A).ret = 1 ∧
    fineoffset_ws90_decode_A bitsLen = Outcome.fail DECODE_ABORT_LENGTH ∧
    fineoffset_ws90_decode_A bitsShort = Outcome.fail DECODE_ABORT_LENGTH ∧
    processA C8buf = Outcome.fail DECODE_ABORT_EARLY ∧
    processB C8buf = Outcome.fail DECODE_ABORT_EARLY :=
  ⟨C5_return_codes.2.1 bitsFB_A (buildA (extract_bytes bitsFB_A 24)) decode_A_sample,
    C5_return_codes.2.2.2.1 bitsLen (by decide),
    C5_return_codes.2.2.2.2.1 bitsShort (by decide) (by decide),
    (C5_return_codes.2.2.2.2.2.2.2.1 C8buf (by decide)).1,
    (C5_return_codes.2.2.2.2.2.2.2.1 C8buf (by decide)).2⟩

/-! C8. -/

/-- C8: counterexample.  A variant A input carrying the documented example
bytes `80 0a 00 3b ...` after the preamble does not decode successfully:
byte 0 is 0x80, not the family code 0x90, so the decoder returns
`DECODE_ABORT_EARLY` and emits no record. -/
theorem C8_counterexample :
    fineoffset_ws90_decode_A C8bits = Outcome.fail DECODE_ABORT_EARLY ∧
    (fineoffset_ws90_decode_A C8bits).ret = DECODE_ABORT_EARLY ∧
    (fineoffset_ws90_decode_A C8bits).toRecord = none :=
  ⟨by decide, by decide, by decide⟩

/-- C8 (amended): the documented example frame is rejected with the
family-mismatch code because its byte 0 is 0x80 rather than 0x90; the
field reconstruction arithmetic applied to its bytes does yield the
documented values — id "0a003b", 2720 mV at level 65, temperature raw 601
(20.1 °C), humidity 56, wind average 24, wind direction 109, wind gust 28,
UV 0. -/
theorem C8_example_fields :
    C8buf 0 = 0x80 ∧
    fineoffset_ws90_decode_A C8bits = Outcome.fail DECODE_ABORT_EARLY ∧
    hex6 (id_raw C8buf) = "0a003b" ∧
    battery_mv C8buf = 2720 ∧ battery_lvl C8buf = 65 ∧
    temp_raw C8buf = 601 ∧ temp_c C8buf = 201 / 10 ∧
    humidity_raw C8buf = 56 ∧ wind_avg C8buf = 24 ∧ wind_dir C8buf = 109 ∧
    wind_max C8buf = 28 ∧ uv_index C8buf = 0 := by
  refine ⟨by decide, by decide, by decide, by decide, by decide, by decide, ?_,
    by decide, by decide, by decide, by decide, by decide⟩
  unfold temp_c
  have h : temp_raw C8buf = 601 := by decide
  rw [h]
  norm_num

/-! C9. -/

/-- C9: counterexample.  An accepted variant A frame whose unassigned byte
14 holds the marker 0xab: the marker appears in none of the opaque hex
groups g1, g2, g3, so byte 14 is omitted from the variant A record. -/
theorem C9_counterexample :
    processA FC9 = Outcome.ok (buildA FC9) ∧ FC9 14 = 0xab ∧
    0xab ∉ (buildA FC9).g1 ++ (buildA FC9).g2 ++ (buildA FC9).g3 :=
  ⟨processA_ok_of FC9 (by decide) (by decide) (by decide), by decide, by decide⟩

/-- C9 (amended): for every accepted frame, variant A's opaque groups
expose exactly bytes 15-18, 21-24 and 25-29 — every unassigned byte except
byte 14, which is omitted — while variant B's extra field exposes exactly
bytes 14-18 and 22-28, covering all its unassigned bytes. -/
theorem C9_groups :
    (∀ buf r, processA buf = Outcome.ok r →
      r.g1 ++ r.g2 ++ r.g3 =
        [buf 15, buf 16, buf 17, buf 18, buf 21, buf 22, buf 23, buf 24,
          buf 25, buf 26, buf 27, buf 28, buf 29]) ∧
    (∀ buf r, processB buf = Outcome.ok r →
      r.extra =
        [buf 14, buf 15, buf 16, buf 17, buf 18, buf 22, buf 23, buf 24,
          buf 25, buf 26, buf 27, buf 28]) := by
  constructor
  · intro buf r h
    obtain ⟨-, -, -, hr⟩ := processA_ok_inv buf r h
    subst hr
    rfl
  · intro buf r h
    obtain ⟨-, -, -, hr⟩ := processB_ok_inv buf r h
    subst hr
    rfl

/-- C9: witness.  The amended theorem applied to the sample capture under
both variants. -/
theorem C9_groups_witness :
    (buildA FB).g1 ++ (buildA FB).g2 ++ (buildA FB).g3 =
      [FB 15, FB 16, FB 17, FB 18, FB 21, FB 22, FB 23, FB 24,
        FB 25, FB 26, FB 27, FB 28, FB 29] ∧
    (buildB FB).extra =
      [FB 14, FB 15, FB 16, FB 17, FB 18, FB 22, FB 23, FB 24,
        FB 25, FB 26, FB 27, FB 28] :=
  ⟨C9_groups.1 FB (buildA FB) (processA_ok_of FB (by decide) (by decide) (by decide)),
    C9_groups.2 FB (buildB FB) (processB_ok_of FB (by decide) (by decide) (by decide))⟩

/-! C10. -/

/-- C10: the variant B supercap raw value `buf[21] & 0x3f` is at most 0x3f,
hence never 0xff, so its presence condition holds and every variant B
record carries the `supercap_V` field. -/
theorem C10_supercap :
    (∀ buf : Frame, supercap_raw buf ≤ 0x3f ∧ supercap_raw buf ≠ 0xff) ∧
    (∀ buf r, processB buf = Outcome.ok r →
      r.supercap_V = some ((supercap_raw buf : ℚ) / 10) ∧ r.supercap_V ≠ none) := by
  have hle : ∀ buf : Frame, supercap_raw buf ≤ 0x3f := fun buf => Nat.and_le_right
  constructor
  · intro buf
    have h := hle buf
    exact ⟨h, by omega⟩
  · intro buf r h
    obtain ⟨-, -, -, hr⟩ := processB_ok_inv buf r h
    subst hr
    have hs : supercap_raw buf ≠ 0xff := by have := hle buf; omega
    have hproj : (buildB buf).supercap_V =
        if supercap_raw buf ≠ 0xff then some ((supercap_raw buf : ℚ) / 10) else none := rfl
    rw [hproj, if_pos hs]
    exact ⟨rfl, by simp⟩

/-- C10: witness.  The theorem applied to the sample capture. -/
theorem C10_supercap_witness :
    (buildB FB).supercap_V = some ((supercap_raw FB : ℚ) / 10) ∧ (buildB FB).supercap_V ≠ none :=
  C10_supercap.2 FB (buildB FB) (processB_ok_of FB (by decide) (by decide) (by decide))

end WS90
